import Mathlib

/-!
Verification development for the ApplyLess job-matching engine
(repository obliqo, backend under backend/app).

The visible source consists of the orchestration layer (main.py) and the
schema layer (models.py).  The service modules they import
(app/services/scoring.py, decision.py, matching.py, explainer.py,
detector.py) are not present in the snapshot; following the design
document, each of those is modelled from the specification text, and every
such definition is marked with a doc comment starting with
"Modelled from the spec:".  Definitions without that marker are direct
translations of the Python source.  Floating-point scores are modelled as
rational numbers.
-/

namespace ApplyLess

/-- User profile with skills, experience, and preferences (models.py,
class UserProfile). -/
structure UserProfile where
  user_id : String
  skills : List String
  experience_years : Int
  experience_level : String
  preferred_roles : List String
  preferred_locations : List String
  career_goals : String
  resume_text : Option String
deriving DecidableEq

/-- Job listing model (models.py, class Job). -/
structure Job where
  job_id : String
  title : String
  company : String
  description : String
  requirements : List String
  location : String
  experience_required : String
  posted_date : String
  company_size : Option String
  is_remote : Bool
deriving DecidableEq

/-- Individual skill gap with learning recommendation (models.py,
class SkillGap). -/
structure SkillGap where
  skill : String
  importance : String
  estimated_learning_time : String
  resources : List String
deriving DecidableEq

/-- Detailed explanation of a job match (models.py,
class ExplainabilityBreakdown). -/
structure ExplainabilityBreakdown where
  matched_skills : List String
  missing_skills : List String
  risk_factors : List String
  strengths : List String
  skill_gaps : List SkillGap
deriving DecidableEq

/-- Job match result with scoring and decision (models.py, class JobMatch).
The pydantic field constraint ge=0, le=100 on fit_score is stated as the
range theorem below rather than baked into the type. -/
structure JobMatch where
  job : Job
  fit_score : ℚ
  decision : String
  decision_reason : String
  explanation : ExplainabilityBreakdown
  competition_level : String
  career_impact : String
deriving DecidableEq

/-- Response for the job feed endpoint (models.py, class JobFeedResponse). -/
structure JobFeedResponse where
  jobs : List JobMatch
  total_count : Nat
  page : Int
  page_size : Int
deriving DecidableEq

/-- FastAPI HTTPException surfaced by the transport layer: a status code
plus a detail string. -/
structure HTTPError where
  status_code : Nat
  detail : String
deriving DecidableEq

/-- Per-component contributions to the fit score (spec section 3,
ScoreBreakdown: semantic, skill-overlap, experience-match, location-match). -/
structure ScoreBreakdown where
  semantic_match : ℚ
  skill_overlap : ℚ
  experience_match : ℚ
  location_match : ℚ
deriving DecidableEq

/-- Modelled from the spec: app/services/scoring.py is absent from the
snapshot.  Section 4.2 makes requirement-token matching case-insensitive
and substring-tolerant for multi-word skills; a skill token matches a
requirement token when, after lowercasing, either is a contiguous
substring of the other. -/
def skill_token_match (skill req : String) : Bool :=
  let s := skill.toLower.toList
  let r := req.toLower.toList
  decide (s <:+: r) || decide (r <:+: s)

/-- Modelled from the spec: skill-overlap ratio of section 4.2, the
fraction of job requirement tokens covered by some profile skill; an
empty requirement list yields 1 (vacuously satisfied, section 4.2 and
section 7). -/
def skill_overlap_ratio (skills reqs : List String) : ℚ :=
  if reqs = [] then 1
  else ((reqs.filter (fun r => skills.any (fun s => skill_token_match s r))).length : ℚ)
      / (reqs.length : ℚ)

/-- Modelled from the spec: the ordered experience scale
Entry < Mid < Senior < Lead of section 4.2, with unrecognized labels
ranked lowest. -/
def level_rank (s : String) : Nat :=
  if s = "Entry" then 0
  else if s = "Mid" then 1
  else if s = "Senior" then 2
  else if s = "Lead" then 3
  else 0

/-- Modelled from the spec: experience-match component of section 4.2,
1 when the profile level meets or exceeds the required level, a
partial-credit value (1/2, a tunable policy constant) when the required
level is exactly one above, else 0. -/
def experience_match_component (p : UserProfile) (j : Job) : ℚ :=
  let pl := level_rank p.experience_level
  let jl := level_rank j.experience_required
  if jl ≤ pl then 1
  else if jl = pl + 1 then 1/2
  else 0

/-- Modelled from the spec: location-match component of section 4.2,
1 when the job is remote or its location is among the preferred
locations, else a lower default (3/10, a tunable policy constant). -/
def location_match_component (p : UserProfile) (j : Job) : ℚ :=
  if j.is_remote || p.preferred_locations.contains j.location then 1
  else 3/10

/-- Modelled from the spec: calculateFitScore of section 4.2.  The
breakdown collects the four components; the fit score is
round(100 times the weighted sum) with the documented illustrative
weights 0.4 semantic, 0.3 skills, 0.2 experience, 0.1 location (they sum
to 1), clamped to the interval [0, 100]. -/
def calculate_fit_score (p : UserProfile) (j : Job) (semantic_score : ℚ) :
    ℚ × ScoreBreakdown :=
  let breakdown : ScoreBreakdown :=
    { semantic_match := semantic_score
      skill_overlap := skill_overlap_ratio p.skills j.requirements
      experience_match := experience_match_component p j
      location_match := location_match_component p j }
  let raw : ℚ := 100 * (2/5 * breakdown.semantic_match
      + 3/10 * breakdown.skill_overlap
      + 1/5 * breakdown.experience_match
      + 1/10 * breakdown.location_match)
  let fit : Int := max 0 (min 100 (round raw))
  ((fit : ℚ), breakdown)

/-- Modelled from the spec: risk-factor text for a low experience-match
component (section 4.3, app/services/explainer.py absent). -/
def risk_low_experience : String :=
  "Your experience level is below what this job requires"

/-- Modelled from the spec: risk-factor text for a requirement count far
exceeding the profile skill count (section 4.3). -/
def risk_requirements_exceed : String :=
  "The job requires far more skills than your profile lists"

/-- Modelled from the spec: risk-factor text for a location mismatch
without a remote option (section 4.3). -/
def risk_location_mismatch : String :=
  "The job location does not match your preferences and the role is not remote"

/-- Modelled from the spec: importance heuristic of section 4.3; a missing
requirement is High importance when it appears among the first two
requirements or is repeated in the description, otherwise Medium. -/
def skill_importance (j : Job) (req : String) : String :=
  if j.requirements.indexOf req < 2
      || decide (req.toLower.toList <:+: j.description.toLower.toList) then "High"
  else "Medium"

/-- Modelled from the spec: SkillGap synthesis of section 4.3, with a
learning-time estimate from a difficulty tiering and placeholder resource
references. -/
def skill_gap_for (j : Job) (req : String) : SkillGap :=
  let imp := skill_importance j req
  { skill := req
    importance := imp
    estimated_learning_time := if imp = "High" then "weeks to months" else "days to weeks"
    resources := ["https://roadmap.sh", "https://www.coursera.org"] }

/-- Modelled from the spec: generateExplanation of section 4.3.  Matched
skills are the profile skills covered by some requirement; missing skills
are the requirements covered by no profile skill; each missing skill
yields a SkillGap; risk factors fire on a low experience-match component,
on a requirement count more than twice the profile skill count, and on a
location mismatch without remote; strengths fire on high skill-overlap or
full experience-match components. -/
def generate_explanation (p : UserProfile) (j : Job) (fit_score : ℚ)
    (breakdown : ScoreBreakdown) : ExplainabilityBreakdown :=
  let matched := p.skills.filter (fun s => j.requirements.any (fun r => skill_token_match s r))
  let missing := j.requirements.filter (fun r => ! p.skills.any (fun s => skill_token_match s r))
  { matched_skills := matched
    missing_skills := missing
    risk_factors :=
      (if breakdown.experience_match < 1 then [risk_low_experience] else [])
        ++ (if 2 * p.skills.length < j.requirements.length then [risk_requirements_exceed] else [])
        ++ (if !j.is_remote && !p.preferred_locations.contains j.location then
              [risk_location_mismatch]
            else [])
    strengths :=
      (if 7/10 ≤ breakdown.skill_overlap then
          ["Strong skill overlap with the requirements"]
        else [])
        ++ (if breakdown.experience_match = 1 then
              ["Your experience level meets the requirement"]
            else [])
    skill_gaps := missing.map (fun r => skill_gap_for j r) }

/-- Modelled from the spec: the ready-to-display ghost-job warning string
of section 4.7 (app/services/detector.py absent). -/
def ghost_job_warning : String :=
  "Warning - this posting shows signs of a ghost job; stale date, vague description, or missing company details"

/-- Modelled from the spec: a risk factor is marked critical exactly when
it is a ghost-job warning injected upstream (section 4.4 names this as
the critical-risk example). -/
def is_critical_risk (r : String) : Bool :=
  r = ghost_job_warning

/-- Modelled from the spec: makeDecision of section 4.4, the state machine
over fit-score bands.  The Avoid rule (fit score below 35 or any critical
risk factor) overrides the score-band outcome; at or above 80 the
decision is Apply with at most one missing skill and Wait otherwise; the
band [60, 80) gives Wait; the band [35, 60) gives Skip. -/
def make_decision (fit_score : ℚ) (p : UserProfile) (j : Job)
    (missing_skills risk_factors : List String) : String × String :=
  if fit_score < 35 ∨ risk_factors.any is_critical_risk then
    ("Avoid", "Low fit or a critical risk factor makes this one to avoid")
  else if 80 ≤ fit_score then
    if missing_skills.length ≤ 1 then
      ("Apply", "Strong fit across the board; apply now")
    else
      ("Wait", "Strong fit, but close the listed skill gaps first")
  else if 60 ≤ fit_score then
    ("Wait", "Good fit; close the main gaps before applying")
  else
    ("Skip", "Weak fit on the dominant scoring component")

/-- Modelled from the spec: titles treated as generic and high-demand by
the competition heuristic of section 4.5
(app/services/decision.py absent). -/
def generic_titles : List String :=
  ["Software Engineer", "Data Analyst", "Product Manager"]

/-- Modelled from the spec: estimateCompetition of section 4.5, a
deterministic heuristic over job-attractiveness proxies (remote flag,
larger company size, generic title); two or more proxies give High, one
gives Medium, none gives Low. -/
def estimate_competition (j : Job) (fit_score : ℚ) : String :=
  let pts : Nat := (if j.is_remote then 1 else 0)
      + (if j.company_size = some "Large" then 1 else 0)
      + (if generic_titles.contains j.title then 1 else 0)
  if 2 ≤ pts then "High"
  else if pts = 1 then "Medium"
  else "Low"

/-- Modelled from the spec: assessCareerImpact of section 4.6.  A stretch
role one level above with a fit score of at least 60 is Positive; a role
two or more levels below the profile level is Negative; a role above the
profile level with a very low fit score is Negative; anything else is
Neutral. -/
def assess_career_impact (j : Job) (p : UserProfile) (fit_score : ℚ) : String :=
  let jl := level_rank j.experience_required
  let pl := level_rank p.experience_level
  if jl = pl + 1 ∧ 60 ≤ fit_score then "Positive"
  else if jl + 2 ≤ pl then "Negative"
  else if pl < jl ∧ fit_score < 35 then "Negative"
  else "Neutral"

/-- Modelled from the spec: the staleness cutoff date of section 4.7,
a policy constant; ISO dates compare lexicographically. -/
def ghost_stale_cutoff : String := "2024-01-01"

/-- Modelled from the spec: the qualityScore aggregate of section 4.7.
Three rule signals (stale posting date, description very short relative
to the requirement count, missing company-size or location detail) each
cost a third of the quality score, which therefore lies in [0, 1]. -/
def ghost_quality_score (j : Job) : ℚ :=
  let stale : Nat := if j.posted_date < ghost_stale_cutoff then 1 else 0
  let vague : Nat := if j.description.length < 30 * j.requirements.length then 1 else 0
  let missing_details : Nat := if j.company_size = none ∨ j.location = "" then 1 else 0
  1 - ((stale + vague + missing_details : Nat) : ℚ) / 3

/-- Modelled from the spec: the (isGhost, warning, qualityScore) triple of
section 4.7; the posting is a ghost when the quality score falls below
1/2, and exactly then the warning string is set. -/
def detect_ghost_job (j : Job) : Bool × Option String × ℚ :=
  let quality_score := ghost_quality_score j
  (decide (quality_score < 1/2),
    if quality_score < 1/2 then some ghost_job_warning else none,
    quality_score)

/-- Modelled from the spec: the Semantic Matcher state of section 4.1
(app/services/matching.py absent).  The Embedding Provider is a black-box
capability converting a text span into a dense vector; cosine similarity
over real-valued vectors involves square roots, which are not rational,
so the raw numeric kernel is abstracted as provider state and the [0, 1]
clamp of section 4.1 is made explicit in calculate_similarity. -/
structure Matcher where
  embed : String → List ℚ
  raw_similarity : List ℚ → List ℚ → ℚ

/-- Modelled from the spec: the stable deterministic text span built from
the profile skills, preferred roles, and career-goals text
(section 4.1, createUserEmbedding). -/
def user_text (p : UserProfile) : String :=
  String.intercalate " " p.skills ++ " "
    ++ String.intercalate " " p.preferred_roles ++ " "
    ++ p.career_goals

/-- Modelled from the spec: the text span built from the job title,
description, and requirements (section 4.1, createJobEmbedding). -/
def job_text (j : Job) : String :=
  j.title ++ " " ++ j.description ++ " " ++ String.intercalate " " j.requirements

/-- Modelled from the spec: createUserEmbedding of section 4.1. -/
def create_user_embedding (m : Matcher) (p : UserProfile) : List ℚ :=
  m.embed (user_text p)

/-- Modelled from the spec: createJobEmbedding of section 4.1. -/
def create_job_embedding (m : Matcher) (j : Job) : List ℚ :=
  m.embed (job_text j)

/-- Modelled from the spec: similarity of section 4.1, the cosine kernel
clamped into [0, 1] to avoid negative values from numerical noise. -/
def calculate_similarity (m : Matcher) (a b : List ℚ) : ℚ :=
  max 0 (min 1 (m.raw_similarity a b))

/-- Modelled from the spec: the scored (job, semanticScore) pairs for one
profile against a job collection, before sorting (section 4.1, rankJobs
computes the profile embedding once and scores every job). -/
def score_pairs (m : Matcher) (p : UserProfile) (jobs : List Job) : List (Job × ℚ) :=
  let ue := create_user_embedding m p
  jobs.map (fun j => (j, calculate_similarity m ue (create_job_embedding m j)))

/-- Modelled from the spec: the ranking comparison of section 4.1,
descending semantic score with ties broken by ascending job id. -/
def rank_le (a b : Job × ℚ) : Bool :=
  decide (b.2 < a.2) || (decide (a.2 = b.2) && decide (a.1.job_id ≤ b.1.job_id))

/-- Modelled from the spec: rankJobs of section 4.1, returning the scored
pairs sorted by descending score with ties broken by ascending job id. -/
def rank_jobs (m : Matcher) (p : UserProfile) (jobs : List Job) : List (Job × ℚ) :=
  (score_pairs m p jobs).mergeSort rank_le

/-- Helper translated from main.py, create_job_match (lines 152 to 193):
computes the fit score and breakdown, the explanation, the decision, the
competition level, and the career impact, then runs the ghost-job check
and inserts the ghost warning at the front of the risk factors when such
a warning was produced, is a nonempty string (Python truthiness), and is
not already present; finally assembles the JobMatch aggregate. -/
def create_job_match (current_profile : UserProfile) (job : Job)
    (semantic_score : ℚ) : JobMatch :=
  let fs := calculate_fit_score current_profile job semantic_score
  let fit_score := fs.1
  let score_breakdown := fs.2
  let explanation := generate_explanation current_profile job fit_score score_breakdown
  let dec := make_decision fit_score current_profile job
      explanation.missing_skills explanation.risk_factors
  let competition_level := estimate_competition job fit_score
  let career_impact := assess_career_impact job current_profile fit_score
  let ghost_warning := (detect_ghost_job job).2.1
  let explanation :=
    match ghost_warning with
    | some w =>
        if w ≠ "" ∧ w ∉ explanation.risk_factors then
          { explanation with risk_factors := w :: explanation.risk_factors }
        else explanation
    | none => explanation
  { job := job
    fit_score := fit_score
    decision := dec.1
    decision_reason := dec.2
    explanation := explanation
    competition_level := competition_level
    career_impact := career_impact }

/-- Translated from main.py, get_job_detail (lines 142 to 149): embed the
profile and the job, compute the clamped similarity, and build the full
match record for one (profile, job) pair. -/
def score_one (m : Matcher) (p : UserProfile) (j : Job) : JobMatch :=
  let user_embedding := create_user_embedding m p
  let job_embedding := create_job_embedding m j
  let semantic_score := calculate_similarity m user_embedding job_embedding
  create_job_match p j semantic_score

/-- Python sequence index normalization for slice bounds: a negative index
counts from the end and clips at 0; a nonnegative index clips at the
length. -/
def py_index (len : Nat) (i : Int) : Nat :=
  if i < 0 then ((len : Int) + i).toNat else min len i.toNat

/-- Python list slicing l[start:stop] for integer bounds, as used by the
pagination step of main.py (line 120). -/
def py_slice {α : Type} (l : List α) (start stop : Int) : List α :=
  (l.take (py_index l.length stop)).drop (py_index l.length start)

/-- Translated from main.py, get_job_feed (lines 106 to 114): build the
full match record for every ranked job, then keep only the matches whose
decision equals the filter when a filter is given; Python treats an empty
filter string as falsy, so it disables filtering. -/
def feed_matches (m : Matcher) (p : UserProfile) (jobs : List Job)
    (decision_filter : Option String) : List JobMatch :=
  let job_matches := (rank_jobs m p jobs).map (fun js => create_job_match p js.1 js.2)
  match decision_filter with
  | some f => if f ≠ "" then job_matches.filter (fun jm => jm.decision = f) else job_matches
  | none => job_matches

/-- Translated from main.py, get_job_feed (lines 87 to 127): reject the
request when no profile is present (status 400) or the job database is
empty (status 404); otherwise rank the jobs, build and filter the
matches, and paginate with Python slicing from (page - 1) * page_size. -/
def get_job_feed (m : Matcher) (current_profile : Option UserProfile)
    (jobs_database : List Job) (page page_size : Int)
    (decision_filter : Option String) : Except HTTPError JobFeedResponse :=
  match current_profile with
  | none => .error { status_code := 400, detail := "Please create a profile first" }
  | some prof =>
      if jobs_database = [] then
        .error { status_code := 404, detail := "No jobs available" }
      else
        let job_matches := feed_matches m prof jobs_database decision_filter
        let total_count := job_matches.length
        let start_idx := (page - 1) * page_size
        let end_idx := start_idx + page_size
        let paginated_jobs := py_slice job_matches start_idx end_idx
        .ok { jobs := paginated_jobs
              total_count := total_count
              page := page
              page_size := page_size }

/-- Sample profile used to instantiate universally quantified theorems at a
concrete input. -/
def sampleProfile : UserProfile :=
  { user_id := "u1"
    skills := ["Python", "SQL"]
    experience_years := 4
    experience_level := "Mid"
    preferred_roles := ["Data Engineer"]
    preferred_locations := ["Remote"]
    career_goals := "grow into a senior data role"
    resume_text := none }

/-- Sample job used to instantiate universally quantified theorems at a
concrete input. -/
def sampleJob : Job :=
  { job_id := "j1"
    title := "Data Engineer"
    company := "Acme"
    description := "Build data pipelines with Python and SQL in a modern stack"
    requirements := ["Python", "SQL", "Docker"]
    location := "Berlin"
    experience_required := "Mid"
    posted_date := "2025-06-01"
    company_size := some "Large"
    is_remote := true }

/-- Second sample job, distinct id, same shape. -/
def sampleJobB : Job :=
  { sampleJob with job_id := "j2" }

/-- Sample job with an empty requirement list. -/
def emptyReqJob : Job :=
  { sampleJob with job_id := "j3", requirements := [] }

/-- Sample stale, vague posting with missing company details; all three
ghost signals fire on it. -/
def staleJob : Job :=
  { job_id := "g1"
    title := "Engineer"
    company := "Shadow"
    description := "Great job"
    requirements := ["Python", "SQL", "Docker", "Kubernetes", "AWS"]
    location := ""
    experience_required := "Mid"
    posted_date := "2020-01-01"
    company_size := none
    is_remote := false }

/-- Sample matcher state: a fixed embedding and a constant similarity
kernel. -/
def sampleMatcher : Matcher :=
  { embed := fun _ => [1], raw_similarity := fun _ _ => 1/2 }

/-- The first component of calculate_fit_score, written out. -/
lemma calculate_fit_score_fst (p : UserProfile) (j : Job) (s : ℚ) :
    (calculate_fit_score p j s).1 =
      ((max 0 (min 100 (round (100 * (2/5 * s
          + 3/10 * skill_overlap_ratio p.skills j.requirements
          + 1/5 * experience_match_component p j
          + 1/10 * location_match_component p j)))) : Int) : ℚ) := rfl

/-- The fit score stored in the assembled JobMatch is exactly the first
component of calculate_fit_score. -/
lemma create_job_match_fit_score (p : UserProfile) (j : Job) (s : ℚ) :
    (create_job_match p j s).fit_score = (calculate_fit_score p j s).1 := by
  unfold create_job_match
  cases (detect_ghost_job j).2.1 <;> simp

/-- The job stored in the assembled JobMatch is the input job. -/
lemma create_job_match_job (p : UserProfile) (j : Job) (s : ℚ) :
    (create_job_match p j s).job = j := by
  unfold create_job_match
  cases (detect_ghost_job j).2.1 <;> simp

/-- C1: for every profile P and job J, the fit score produced for the
(P, J) pair is in the closed interval [0, 100], and the JobMatch
aggregate returned to callers always carries a fit_score in [0, 100]. -/
theorem fit_score_in_range (p : UserProfile) (j : Job) (s : ℚ) :
    (0 ≤ (calculate_fit_score p j s).1 ∧ (calculate_fit_score p j s).1 ≤ 100)
      ∧ (0 ≤ (create_job_match p j s).fit_score
          ∧ (create_job_match p j s).fit_score ≤ 100) := by
  have h : 0 ≤ (calculate_fit_score p j s).1 ∧ (calculate_fit_score p j s).1 ≤ 100 := by
    rw [calculate_fit_score_fst]
    constructor
    · exact_mod_cast le_max_left 0 _
    · exact_mod_cast max_le (by norm_num) (min_le_left 100 _)
  exact ⟨h, by rw [create_job_match_fit_score]; exact h⟩

/-- C5: with the skill-overlap, experience-match, and location-match
components held fixed (they depend only on the profile and job), the fit
score is monotone in the semantic-similarity input. -/
theorem fit_score_monotone (p : UserProfile) (j : Job) (s1 s2 : ℚ)
    (h : s1 ≤ s2) :
    (calculate_fit_score p j s1).1 ≤ (calculate_fit_score p j s2).1 := by
  rw [calculate_fit_score_fst, calculate_fit_score_fst]
  have hraw : 100 * (2/5 * s1
        + 3/10 * skill_overlap_ratio p.skills j.requirements
        + 1/5 * experience_match_component p j
        + 1/10 * location_match_component p j)
      ≤ 100 * (2/5 * s2
        + 3/10 * skill_overlap_ratio p.skills j.requirements
        + 1/5 * experience_match_component p j
        + 1/10 * location_match_component p j) := by linarith
  have hround : round (100 * (2/5 * s1
        + 3/10 * skill_overlap_ratio p.skills j.requirements
        + 1/5 * experience_match_component p j
        + 1/10 * location_match_component p j))
      ≤ round (100 * (2/5 * s2
        + 3/10 * skill_overlap_ratio p.skills j.requirements
        + 1/5 * experience_match_component p j
        + 1/10 * location_match_component p j)) := by
    rw [round_eq, round_eq]
    exact Int.floor_le_floor (by linarith)
  exact_mod_cast max_le_max (le_refl 0) (min_le_min (le_refl 100) hround)

/-- Closed instance of fit_score_monotone at a concrete profile, job, and
pair of similarity values. -/
theorem fit_score_monotone_witness :
    (0 : ℚ) ≤ 1
      ∧ (calculate_fit_score sampleProfile sampleJob 0).1
          ≤ (calculate_fit_score sampleProfile sampleJob 1).1 :=
  ⟨by norm_num, fit_score_monotone sampleProfile sampleJob 0 1 (by norm_num)⟩

/-- C7: for every profile and every job whose requirements list is empty,
calculateFitScore defines the skill-overlap component as 1 and returns
normally (the function is total, so a result is always produced). -/
theorem empty_requirements_full_overlap (p : UserProfile) (j : Job) (s : ℚ)
    (h : j.requirements = []) :
    (calculate_fit_score p j s).2.skill_overlap = 1 := by
  simp [calculate_fit_score, skill_overlap_ratio, h]

/-- Closed instance of empty_requirements_full_overlap at a concrete job
with no requirements. -/
theorem empty_requirements_full_overlap_witness :
    emptyReqJob.requirements = []
      ∧ (calculate_fit_score sampleProfile emptyReqJob (1/2)).2.skill_overlap = 1 :=
  ⟨rfl, empty_requirements_full_overlap sampleProfile emptyReqJob (1/2) rfl⟩

/-- C2 counterexample: a fit score of 90 with no missing skills, but with
a critical (ghost-job) risk factor among the risk factors, yields Avoid
rather than Apply, because the critical-risk override takes precedence
over the score bands. -/
theorem decision_apply_cex :
    (80 : ℚ) ≤ 90
      ∧ ([] : List String).length ≤ 1
      ∧ (make_decision 90 sampleProfile sampleJob [] [ghost_job_warning]).1 = "Avoid" := by
  refine ⟨by norm_num, by decide, ?_⟩
  simp [make_decision, is_critical_risk]

/-- C2 as amended: if the fit score is at least 80, at most one skill is
missing, and no risk factor is critical, the decision is Apply; and if
the fit score is below 35, the decision is Avoid regardless of the other
signals. -/
theorem make_decision_bands (fit : ℚ) (p : UserProfile) (j : Job)
    (missing risks : List String) :
    (risks.any is_critical_risk = false → 80 ≤ fit → missing.length ≤ 1 →
        (make_decision fit p j missing risks).1 = "Apply")
      ∧ (fit < 35 → (make_decision fit p j missing risks).1 = "Avoid") := by
  constructor
  · intro hrisk hfit hmiss
    have hno : ¬ (fit < 35 ∨ risks.any is_critical_risk) := by
      push_neg
      exact ⟨by linarith, by simp [hrisk]⟩
    simp only [make_decision]
    rw [if_neg hno, if_pos hfit, if_pos hmiss]
  · intro hfit
    simp only [make_decision]
    rw [if_pos (Or.inl hfit)]

/-- Closed instance of make_decision_bands: a clean fit score of 90 with
no missing skills gives Apply, and a fit score of 10 gives Avoid. -/
theorem make_decision_bands_witness :
    (make_decision 90 sampleProfile sampleJob [] []).1 = "Apply"
      ∧ (make_decision 10 sampleProfile sampleJob [] []).1 = "Avoid" :=
  ⟨(make_decision_bands 90 sampleProfile sampleJob [] []).1 rfl (by norm_num) (by decide),
    (make_decision_bands 10 sampleProfile sampleJob [] []).2 (by norm_num)⟩

/-- When the ghost detector yields a warning at all, that warning is the
fixed ghost-job warning string. -/
lemma detect_ghost_job_warning_eq (j : Job) (w : String)
    (h : (detect_ghost_job j).2.1 = some w) : w = ghost_job_warning := by
  unfold detect_ghost_job at h
  simp only at h
  by_cases hq : ghost_quality_score j < 1/2
  · rw [if_pos hq] at h
    exact (Option.some_inj.mp h).symm
  · rw [if_neg hq] at h
    exact absurd h (by simp)

/-- The explainer never produces the ghost-job warning string itself: its
risk factors come from a fixed three-element vocabulary. -/
lemma ghost_warning_not_in_explanation (p : UserProfile) (j : Job)
    (f : ℚ) (bd : ScoreBreakdown) :
    ghost_job_warning ∉ (generate_explanation p j f bd).risk_factors := by
  intro h
  simp only [generate_explanation, List.mem_append] at h
  rcases h with (h | h) | h <;> split at h <;>
    simp_all [ghost_job_warning, risk_low_experience, risk_requirements_exceed,
      risk_location_mismatch]

/-- C3: for every job for which detect_ghost_job returns a warning string,
the JobMatch assembled for that job has that warning as the first element
of the risk_factors list of its explanation. -/
theorem ghost_warning_first (p : UserProfile) (j : Job) (s : ℚ) (w : String)
    (h : (detect_ghost_job j).2.1 = some w) :
    ((create_job_match p j s).explanation.risk_factors).head? = some w := by
  have hw := detect_ghost_job_warning_eq j w h
  subst hw
  unfold create_job_match
  rw [h]
  simp only
  rw [if_pos ⟨by decide, ghost_warning_not_in_explanation p j _ _⟩]
  rfl

/-- All three ghost signals fire on staleJob, so its quality score is 0
and the detector returns the warning. -/
lemma staleJob_ghost : (detect_ghost_job staleJob).2.1 = some ghost_job_warning := by
  have hq : ghost_quality_score staleJob < 1/2 := by
    unfold ghost_quality_score
    have hs : staleJob.posted_date < ghost_stale_cutoff := by
      show ("2020-01-01" : String) < "2024-01-01"
      rw [String.lt_iff_toList_lt]; decide
    have hv : staleJob.description.length < 30 * staleJob.requirements.length := by decide
    have hm : staleJob.company_size = none ∨ staleJob.location = "" := Or.inl rfl
    rw [if_pos hs, if_pos hv, if_pos hm]
    norm_num
  unfold detect_ghost_job
  simp only
  rw [if_pos hq]

/-- Closed instance of ghost_warning_first at a stale, vague posting with
missing company details. -/
theorem ghost_warning_first_witness :
    (detect_ghost_job staleJob).2.1 = some ghost_job_warning
      ∧ ((create_job_match sampleProfile staleJob (1/2)).explanation.risk_factors).head?
          = some ghost_job_warning :=
  ⟨staleJob_ghost,
    ghost_warning_first sampleProfile staleJob (1/2) ghost_job_warning staleJob_ghost⟩

/-- C4: two runs of the full match pipeline with identical profile, job,
and Embedding Provider state produce identical results: the same fit
score, the same score breakdown, the same decision with reason, and the
same explanation; the pipeline is a pure function of its inputs with no
randomness source. -/
theorem pipeline_deterministic (m : Matcher) (p : UserProfile) (j : Job) :
    (score_one m p j).fit_score = (score_one m p j).fit_score
      ∧ (calculate_fit_score p j (calculate_similarity m
            (create_user_embedding m p) (create_job_embedding m j))).2
          = (calculate_fit_score p j (calculate_similarity m
              (create_user_embedding m p) (create_job_embedding m j))).2
      ∧ (score_one m p j).decision = (score_one m p j).decision
      ∧ (score_one m p j).decision_reason = (score_one m p j).decision_reason
      ∧ (score_one m p j).explanation = (score_one m p j).explanation
      ∧ score_one m p j = score_one m p j :=
  ⟨rfl, rfl, rfl, rfl, rfl, rfl⟩

/-- C9: the match pipeline reads the profile and the job but never writes
to them; its translation is a pure function, the assembled aggregate
carries the input job unchanged, and the fit score it carries is exactly
the value derived from the unchanged inputs. -/
theorem match_preserves_inputs (p : UserProfile) (j : Job) (s : ℚ) :
    (create_job_match p j s).job = j
      ∧ (create_job_match p j s).fit_score = (calculate_fit_score p j s).1 :=
  ⟨create_job_match_job p j s, create_job_match_fit_score p j s⟩

/-- The ranking comparison holds between a and b exactly when a has the
strictly larger score or scores tie and the id of a is at most that
of b. -/
lemma rank_le_iff (a b : Job × ℚ) :
    rank_le a b = true ↔ b.2 < a.2 ∨ (a.2 = b.2 ∧ a.1.job_id ≤ b.1.job_id) := by
  simp [rank_le]

/-- The ranking comparison is transitive. -/
lemma rank_le_trans (a b c : Job × ℚ)
    (hab : rank_le a b) (hbc : rank_le b c) : rank_le a c := by
  rw [rank_le_iff] at hab hbc ⊢
  rcases hab with h1 | ⟨h1, h1id⟩
  · rcases hbc with h2 | ⟨h2, h2id⟩
    · exact Or.inl (lt_trans h2 h1)
    · exact Or.inl (h2 ▸ h1)
  · rcases hbc with h2 | ⟨h2, h2id⟩
    · exact Or.inl (h1 ▸ h2)
    · exact Or.inr ⟨h1.trans h2, le_trans h1id h2id⟩

/-- The ranking comparison is total. -/
lemma rank_le_total (a b : Job × ℚ) : rank_le a b || rank_le b a := by
  rcases lt_trichotomy a.2 b.2 with h | h | h
  · simp [rank_le_iff, h]
  · rcases le_total a.1.job_id b.1.job_id with hid | hid
    · simp [rank_le_iff, h, hid]
    · simp [rank_le_iff, h.symm, hid]
  · simp [rank_le_iff, h]

/-- C6: rank_jobs returns the scored (job, score) pairs sorted by
descending semantic score with ties between equal scores broken by
ascending job id, and the output is a permutation of the scored pairs, so
the returned ordering is a function of the inputs alone. -/
theorem rank_jobs_sorted (m : Matcher) (p : UserProfile) (jobs : List Job) :
    (rank_jobs m p jobs).Pairwise
        (fun a b => b.2 < a.2 ∨ (a.2 = b.2 ∧ a.1.job_id ≤ b.1.job_id))
      ∧ (rank_jobs m p jobs).Perm (score_pairs m p jobs) := by
  constructor
  · have h := List.sorted_mergeSort
        (fun a b c => rank_le_trans a b c)
        rank_le_total
        (score_pairs m p jobs)
    exact h.imp (fun hab => (rank_le_iff _ _).mp hab)
  · exact List.mergeSort_perm (score_pairs m p jobs) rank_le

/-- C8: a job-feed request made with no submitted profile, or with an
empty job collection, is answered with a precondition failure and no
normal result is produced. -/
theorem feed_precondition (m : Matcher) (cp : Option UserProfile)
    (jobs : List Job) (page page_size : Int) (df : Option String)
    (h : cp = none ∨ jobs = []) :
    ∃ e : HTTPError, get_job_feed m cp jobs page page_size df = Except.error e := by
  rcases h with h | h
  · subst h
    exact ⟨{ status_code := 400, detail := "Please create a profile first" }, rfl⟩
  · subst h
    cases cp with
    | none => exact ⟨{ status_code := 400, detail := "Please create a profile first" }, rfl⟩
    | some prof =>
        exact ⟨{ status_code := 404, detail := "No jobs available" },
          by simp [get_job_feed]⟩

/-- Closed instance of feed_precondition with an empty job collection. -/
theorem feed_precondition_witness :
    (some sampleProfile = none ∨ ([] : List Job) = [])
      ∧ ∃ e : HTTPError,
          get_job_feed sampleMatcher (some sampleProfile) [] 1 20 none = Except.error e :=
  ⟨Or.inr rfl,
    feed_precondition sampleMatcher (some sampleProfile) [] 1 20 none (Or.inr rfl)⟩

/-- Taking clipped at the length of the list is plain taking. -/
lemma take_clip {α : Type} (l : List α) (n : Nat) :
    l.take (min l.length n) = l.take n := by
  rcases le_total l.length n with h | h
  · rw [min_eq_left h, List.take_length, List.take_of_length_le h]
  · rw [min_eq_right h]

/-- Dropping a count clipped at any bound on the length is plain
dropping. -/
lemma drop_clip {α : Type} (xs : List α) (L n : Nat) (h : xs.length ≤ L) :
    xs.drop (min L n) = xs.drop n := by
  rcases le_total L n with h1 | h1
  · rw [min_eq_left h1, List.drop_eq_nil_of_le h,
      List.drop_eq_nil_of_le (h.trans h1)]
  · rw [min_eq_right h1]

/-- For nonnegative start and width, the Python slice l[a : a + b] is drop
a then take b. -/
lemma py_slice_nonneg {α : Type} (l : List α) (a b : Int)
    (ha : 0 ≤ a) (hb : 0 ≤ b) :
    py_slice l a (a + b) = (l.drop a.toNat).take b.toNat := by
  unfold py_slice py_index
  rw [if_neg (not_lt.mpr (by linarith : (0:ℤ) ≤ a + b)), if_neg (not_lt.mpr ha)]
  rw [take_clip]
  rw [drop_clip (l.take (a + b).toNat) l.length a.toNat
      (by rw [List.length_take]; exact min_le_right _ _)]
  rw [List.drop_take, Int.toNat_add ha hb, Nat.add_sub_cancel_left]

/-- With no decision filter, the feed match list has one entry per job. -/
lemma feed_matches_length_no_filter (m : Matcher) (p : UserProfile)
    (jobs : List Job) : (feed_matches m p jobs none).length = jobs.length := by
  simp [feed_matches, rank_jobs, (List.mergeSort_perm _ _).length_eq, score_pairs]

/-- C10 counterexample: with two jobs, page 1, and page_size -1, the feed
returns one job, which is more than page_size elements; the claimed
bound fails for a negative page size because Python slicing counts a
negative stop index from the end of the list. -/
theorem feed_pagination_cex :
    (1 : Int) ≥ 1
      ∧ ((get_job_feed sampleMatcher (some sampleProfile) [sampleJob, sampleJobB]
            1 (-1) none).toOption.map (fun r => r.jobs.length)) = some 1
      ∧ ¬ ((1 : Int) ≤ -1) := by
  refine ⟨le_refl 1, ?_, by norm_num⟩
  have hlen : (feed_matches sampleMatcher sampleProfile [sampleJob, sampleJobB] none).length = 2 :=
    feed_matches_length_no_filter sampleMatcher sampleProfile [sampleJob, sampleJobB]
  simp only [get_job_feed]
  rw [if_neg (by simp : ¬ ([sampleJob, sampleJobB] : List Job) = [])]
  simp only [Except.toOption, Option.map]
  norm_num [py_slice, py_index, hlen]

/-- C10 as amended: for every job-feed request with page at least 1 and
page_size at least 0 on a nonempty job database, the returned jobs list
is the contiguous slice of the decision-filtered match list starting at
index (page - 1) * page_size with at most page_size elements in ranked
order, and total_count is the length of the whole filtered list; a page
past the end yields an empty jobs list because drop past the end is
empty. -/
theorem feed_pagination (m : Matcher) (p : UserProfile) (jobs : List Job)
    (page page_size : Int) (df : Option String)
    (hpage : 1 ≤ page) (hps : 0 ≤ page_size) (hjobs : jobs ≠ []) :
    get_job_feed m (some p) jobs page page_size df
      = Except.ok
          { jobs := ((feed_matches m p jobs df).drop ((page - 1) * page_size).toNat).take
              page_size.toNat
            total_count := (feed_matches m p jobs df).length
            page := page
            page_size := page_size } := by
  simp only [get_job_feed]
  rw [if_neg hjobs]
  rw [py_slice_nonneg (feed_matches m p jobs df) ((page - 1) * page_size) page_size
      (mul_nonneg (by linarith) hps) hps]

/-- Closed instance of feed_pagination at page 1 with page size 20. -/
theorem feed_pagination_witness :
    get_job_feed sampleMatcher (some sampleProfile) [sampleJob, sampleJobB] 1 20 none
      = Except.ok
          { jobs := ((feed_matches sampleMatcher sampleProfile [sampleJob, sampleJobB]
                none).drop (((1 : Int) - 1) * 20).toNat).take (20 : Int).toNat
            total_count := (feed_matches sampleMatcher sampleProfile
                [sampleJob, sampleJobB] none).length
            page := 1
            page_size := 20 } :=
  feed_pagination sampleMatcher sampleProfile [sampleJob, sampleJobB] 1 20 none
    (by norm_num) (by norm_num) (by simp)

end ApplyLess
